import Mathlib

/-!
# pkp-google-auth: the sign-in / mint / session / sign workflow of `src/pages/index.js`

The page component `Home` keeps its workflow in React state cells and changes them
from four asynchronous handlers (`handleRedirect`, `mint`, `createSession`,
`signMessage`) and from the click handler of the error view.  This development
embeds those handlers as functions on an explicit `State` record.

* Every `useState` cell is a field of `State`; a `setX(v)` call is a record update.
* Everything the page imports from elsewhere (the relay helpers of `@/utils/relay`,
  the redirect helper of `@/utils/auth`, the Lit node client and the `ethers`
  helpers) is a field of `World`: an arbitrary function that returns a value or throws.
* A JavaScript value that may be `undefined` is an `Option`; a call that may throw
  returns an `Except JSError`.  The shapes of the relay and network responses are
  the ones the page reads from them.
* Each handler also returns the list of external requests it made, oldest first,
  so that "no request was sent" is a statement about that list.
-/

namespace PkpGoogleAuth

/-! ## Data model -/

/-- A thrown JavaScript exception: an `Error` created with a message, or the
`TypeError` the runtime raises when a property of `undefined` is read. -/
inductive JSError where
  | Error (message : String)
  | TypeError (message : String)
  deriving DecidableEq, Repr

/-- The values of the `Views` table, and `undefined`, which is what the lookup
`Views.HANDLE_REDIRECT` yields because the table has no such key. -/
inductive View where
  | SIGN_IN
  | FETCHING
  | FETCHED
  | MINTING
  | MINTED
  | CREATING_SESSION
  | SESSION_CREATED
  | ERROR
  | undefined
  deriving DecidableEq, Repr

/-- The `Views.HANDLE_REDIRECT` lookup of `handleRedirect`: the key is absent from `Views`. -/
def Views_HANDLE_REDIRECT : View := View.undefined

/-- A key record `{ ethAddress, publicKey }`. -/
structure PKP where
  ethAddress : String
  publicKey : String
  deriving DecidableEq, Repr

/-- The `error` cell: `undefined` after `useState()`, `null` after `setError(null)`,
or the caught exception. -/
inductive ErrorVal where
  | undefined
  | null
  | thrown (err : JSError)
  deriving DecidableEq, Repr

/-- The `pkps` cell.  It starts as an array; `handleRedirect` stores in it what the relay
sent when that has a positive `length`, an array of records or a string; `mint` stores
the result of `pkps + [newPKP]`, which is a string. -/
inductive PKPsVal where
  | arr (items : List PKP)
  | str (s : String)
  deriving DecidableEq, Repr

/-- The client object built by `new LitNodeClient(...)`. -/
structure LitNodeClient where
  litNetwork : String
  debug : Bool
  deriving DecidableEq, Repr

/-- The object `getSessionSigs` resolves to.  The page never looks inside it. -/
structure SessionSigs where
  capabilities : List (String × String)
  expiration : Nat
  deriving DecidableEq, Repr

/-- The argument of the relay helpers, `JSON.stringify` of the object with the one
field `idToken`. -/
structure RelayBody where
  idToken : Option String
  deriving DecidableEq, Repr

/-- A value the relay may send in the field `pkps` of its JSON response: one of the
JSON scalars (numbers are the integer-valued ones) or an array of key records. -/
inductive RelayValue where
  | null
  | bool (b : Bool)
  | num (n : Int)
  | str (s : String)
  | arr (items : List PKP)
  deriving DecidableEq, Repr

/-- Response of the list-keys request; `pkps` is `none` when the field is absent, in
which case the page reads `undefined`. -/
structure FetchRes where
  pkps : Option RelayValue
  deriving DecidableEq, Repr

/-- Response of the mint request; `requestId` is `none` when the field is absent. -/
structure MintRes where
  requestId : Option String
  deriving DecidableEq, Repr

/-- Terminal poll response; the two key fields are optional. -/
structure PollRes where
  status : String
  pkpEthAddress : Option String
  pkpPublicKey : Option String
  deriving DecidableEq, Repr

/-- One element of the `authMethods` array of `createSession`. -/
structure AuthMethod where
  authMethodType : Nat
  accessToken : Option String
  deriving DecidableEq, Repr

/-- The closure returned by `getDefaultAuthNeededCallback`, given by the two values
it captures and later hands to `signSessionKey`. -/
structure AuthNeededCallback where
  authMethods : List AuthMethod
  pkpPublicKey : String
  deriving DecidableEq, Repr

/-- The argument object of `litNodeClient.getSessionSigs`. -/
structure SessionRequest where
  chain : String
  resources : List String
  authNeededCallback : AuthNeededCallback
  deriving DecidableEq, Repr

/-- The `jsParams` object of `signMessage`. -/
structure JsParams where
  toSign : List Nat
  publicKey : String
  sigName : String
  deriving DecidableEq, Repr

/-- The argument object of `litNodeClient.executeJs`. -/
structure ExecRequest where
  code : String
  sessionSigs : Option SessionSigs
  jsParams : JsParams
  deriving DecidableEq, Repr

/-- One combined signature of an execution response. -/
structure SigShare where
  r : String
  s : String
  recid : Nat
  dataSigned : String
  deriving DecidableEq, Repr

/-- The execution response: `signatures` maps a signature name to its share and is
`none` when the response has no such field. -/
structure ExecResults where
  signatures : Option (List (String × SigShare))
  deriving DecidableEq, Repr

/-- An external request made by a handler. -/
inductive Call where
  | fetchPKPs (body : RelayBody)
  | mintPKP (body : RelayBody)
  | pollRequestUntilTerminalState (requestId : String)
  | getSessionSigs (req : SessionRequest)
  | executeJs (req : ExecRequest)
  | routerReplace (url : String)
  deriving DecidableEq, Repr

/-- The collaborators of the page: each is a function that returns or throws. -/
structure World where
  handleSignInRedirect : Except JSError String
  fetchPKPs : RelayBody → Except JSError FetchRes
  mintPKP : RelayBody → Except JSError MintRes
  pollRequestUntilTerminalState : String → Except JSError PollRes
  getSessionSigs : SessionRequest → Except JSError SessionSigs
  executeJs : ExecRequest → Except JSError ExecResults
  hashMessage : String → List Nat
  joinSignature : String → String → Nat → Except JSError String
  verifyMessage : String → String → Except JSError String

/-- The React state cells of `Home`. -/
structure State where
  view : View
  error : ErrorVal
  litNodeClient : Option LitNodeClient
  googleIdToken : Option String
  pkps : PKPsVal
  currentPKP : Option PKP
  sessionSigs : Option SessionSigs
  message : String
  signature : Option String
  recoveredAddress : Option String
  verified : Bool
  deriving DecidableEq, Repr

/-- The state after the first render: the initial values of the `useState` calls. -/
def initialState : State where
  view := View.SIGN_IN
  error := ErrorVal.undefined
  litNodeClient := none
  googleIdToken := none
  pkps := PKPsVal.arr []
  currentPKP := none
  sessionSigs := none
  message := "Free the web!"
  signature := none
  recoveredAddress := none
  verified := false

/-- What a `try` block leaves behind: the state cells as written so far, the requests
made, and the exception that left the block, if any. -/
structure Attempt where
  state : State
  calls : List Call
  thrown : Option JSError
  deriving DecidableEq, Repr

/-- What a handler leaves behind once its `catch` block has run. -/
structure Outcome where
  state : State
  calls : List Call
  deriving DecidableEq, Repr

/-- What a helper function leaves behind: its value or exception, and the requests made. -/
structure Ran (α : Type) where
  result : Except JSError α
  calls : List Call

/-! ## JavaScript primitives used by the page -/

/-- Truthiness of a value that is `undefined` or a string: `undefined` and the empty
string are falsy.  Returns the string when it is truthy. -/
def truthyStr : Option String → Option String
  | some s => if s = "" then none else some s
  | none => none

/-- Truthiness of a value that is `undefined` or an object (arrays included): only
`undefined` is falsy; the empty array is truthy. -/
def truthyObj {α : Type} : Option α → Bool
  | some _ => true
  | none => false

/-- Truthiness of a value of the relay: `null`, `false`, `0` and the empty string are
falsy; every other scalar and every array, the empty one included, is truthy. -/
def RelayValue.truthy : RelayValue → Bool
  | RelayValue.null => false
  | RelayValue.bool b => b
  | RelayValue.num n => n != 0
  | RelayValue.str s => s != ""
  | RelayValue.arr _ => true

/-- The `toString` of a plain object. -/
def PKP.toString (_ : PKP) : String := "[object Object]"

/-- The method `Array.prototype.toString`: the elements, converted, joined by commas. -/
def arrayToString (items : List PKP) : String :=
  ",".intercalate (items.map PKP.toString)

/-- Conversion to a primitive as the operator `+` does it: an array becomes its
`toString`, a string stays. -/
def PKPsVal.toPrimitive : PKPsVal → String
  | PKPsVal.arr items => arrayToString items
  | PKPsVal.str s => s

/-- The expression `pkps + [newPKP]`: both operands are converted to primitives; the right
one is an array, so it becomes a string and `+` concatenates. -/
def PKPsVal.add (pkps : PKPsVal) (rhs : List PKP) : PKPsVal :=
  PKPsVal.str (pkps.toPrimitive ++ arrayToString rhs)

/-- The `length` property, which both arrays and strings have. -/
def PKPsVal.length : PKPsVal → Nat
  | PKPsVal.arr items => items.length
  | PKPsVal.str s => s.length

/-- The method `String.prototype.toLowerCase` on the ASCII letters that addresses are
written in. -/
def toLowerCase (s : String) : String := String.mk (s.data.map Char.toLower)

/-- The Lit action source that `signMessage` submits. -/
def litActionCode : String :=
  "\n        const go = async () => \x7b\n          // this requests a signature share from the Lit Node\n          // the signature share will be automatically returned in the response from the node\n          // and combined into a full signature by the LitJsSdk for you to use on the client\n          // all the params (toSign, publicKey, sigName) are passed in from the LitJsSdk.executeJs() function\n          const sigShare = await LitActions.signEcdsa(\x7b toSign, publicKey, sigName \x7d);\n        \x7d;\n        go();\n      "

/-- The `catch (err)` block shared by all handlers: `setError(err); setView(Views.ERROR)`. -/
def catchBlock (a : Attempt) : Outcome :=
  match a.thrown with
  | none => { state := a.state, calls := a.calls }
  | some err =>
    { state := { a.state with error := ErrorVal.thrown err, view := View.ERROR }, calls := a.calls }

/-! ## Helper functions of the page -/

/-- The function `fetchGooglePKPs(idToken)`. -/
def fetchGooglePKPs (w : World) (idToken : Option String) : Ran RelayValue :=
  let body : RelayBody := { idToken := idToken }
  match w.fetchPKPs body with
  | Except.error err => { result := Except.error err, calls := [Call.fetchPKPs body] }
  | Except.ok fetchRes =>
    match fetchRes.pkps with
    | none =>
      -- the test `!pkps` succeeds: `undefined` is falsy
      { result := Except.error (JSError.Error "Unable to fetch PKPs through relay server"),
        calls := [Call.fetchPKPs body] }
    | some pkps =>
      if !pkps.truthy then
        { result := Except.error (JSError.Error "Unable to fetch PKPs through relay server"),
          calls := [Call.fetchPKPs body] }
      else
        { result := Except.ok pkps, calls := [Call.fetchPKPs body] }

/-- The function `mintGooglePKP(idToken)`. -/
def mintGooglePKP (w : World) (idToken : Option String) : Ran PKP :=
  let body : RelayBody := { idToken := idToken }
  match w.mintPKP body with
  | Except.error err => { result := Except.error err, calls := [Call.mintPKP body] }
  | Except.ok mintRes =>
    match truthyStr mintRes.requestId with
    | none =>
      { result := Except.error (JSError.Error "Unable to mint PKP through relay server"),
        calls := [Call.mintPKP body] }
    | some requestId =>
      match w.pollRequestUntilTerminalState requestId with
      | Except.error err =>
        { result := Except.error err,
          calls := [Call.mintPKP body, Call.pollRequestUntilTerminalState requestId] }
      | Except.ok pollRes =>
        match truthyStr pollRes.pkpEthAddress, truthyStr pollRes.pkpPublicKey with
        | some ethAddress, some publicKey =>
          { result := Except.ok { ethAddress := ethAddress, publicKey := publicKey },
            calls := [Call.mintPKP body, Call.pollRequestUntilTerminalState requestId] }
        | _, _ =>
          { result := Except.error (JSError.Error "Unable to mint PKP through relay server"),
            calls := [Call.mintPKP body, Call.pollRequestUntilTerminalState requestId] }

/-- The function `getDefaultAuthNeededCallback(authMethods, pkpPublicKey)`. -/
def getDefaultAuthNeededCallback (authMethods : List AuthMethod) (pkpPublicKey : String) :
    AuthNeededCallback :=
  { authMethods := authMethods, pkpPublicKey := pkpPublicKey }

/-! ## Handlers -/

/-- The body of `handleRedirect` up to the end of its `try` block. -/
def handleRedirectTry (w : World) (s : State) : Attempt :=
  let s1 := { s with view := Views_HANDLE_REDIRECT }
  match w.handleSignInRedirect with
  | Except.error err => { state := s1, calls := [], thrown := some err }
  | Except.ok googleIdToken =>
    let s2 := { s1 with googleIdToken := some googleIdToken }
    let s3 := { s2 with view := View.FETCHING }
    let ran := fetchGooglePKPs w (some googleIdToken)
    match ran.result with
    | Except.error err => { state := s3, calls := ran.calls, thrown := some err }
    | Except.ok pkps =>
      -- `if (pkps.length > 0) setPKPs(pkps)`, by the kind of value that `pkps` is
      match pkps with
      | RelayValue.arr items =>
        let s4 := if items.length > 0 then { s3 with pkps := PKPsVal.arr items } else s3
        { state := { s4 with view := View.FETCHED }, calls := ran.calls, thrown := none }
      | RelayValue.str text =>
        let s4 := if text.length > 0 then { s3 with pkps := PKPsVal.str text } else s3
        { state := { s4 with view := View.FETCHED }, calls := ran.calls, thrown := none }
      | RelayValue.bool _ =>
        -- a boolean has no `length`: `undefined > 0` is false
        { state := { s3 with view := View.FETCHED }, calls := ran.calls, thrown := none }
      | RelayValue.num _ =>
        -- a number has no `length`: `undefined > 0` is false
        { state := { s3 with view := View.FETCHED }, calls := ran.calls, thrown := none }
      | RelayValue.null =>
        { state := s3, calls := ran.calls,
          thrown := some (JSError.TypeError
            "Cannot read properties of null (reading \"length\")") }

/-- The handler `handleRedirect`: the `try` block, the `catch` block, then `router.replace`. -/
def handleRedirect (w : World) (s : State) : Outcome :=
  let o := catchBlock (handleRedirectTry w s)
  { state := o.state, calls := o.calls ++ [Call.routerReplace "/"] }

/-- The argument object that `createSession(pkp)` builds for `getSessionSigs`: the token
of the state is captured in `authMethods`, the public key of `pkp` in the callback. -/
def getSessionSigsArgs (s : State) (pkp : PKP) : SessionRequest :=
  let authMethods : List AuthMethod := [{ authMethodType := 6, accessToken := s.googleIdToken }]
  let authNeededCallback := getDefaultAuthNeededCallback authMethods pkp.publicKey
  { chain := "ethereum", resources := ["litAction://*"], authNeededCallback := authNeededCallback }

/-- The body of `createSession(pkp)` up to the end of its `try` block. -/
def createSessionTry (w : World) (s : State) (pkp : PKP) : Attempt :=
  let s1 := { s with view := View.CREATING_SESSION }
  match s.litNodeClient with
  | none =>
    { state := s1, calls := [],
      thrown := some (JSError.TypeError
        "Cannot read properties of undefined (reading \"getSessionSigs\")") }
  | some _ =>
    let req := getSessionSigsArgs s pkp
    match w.getSessionSigs req with
    | Except.error err => { state := s1, calls := [Call.getSessionSigs req], thrown := some err }
    | Except.ok sessionSigs =>
      let s2 := { s1 with currentPKP := some pkp }
      let s3 := { s2 with sessionSigs := some sessionSigs }
      { state := { s3 with view := View.SESSION_CREATED },
        calls := [Call.getSessionSigs req], thrown := none }

/-- The handler `createSession(pkp)`. -/
def createSession (w : World) (s : State) (pkp : PKP) : Outcome :=
  catchBlock (createSessionTry w s pkp)

/-- The body of `mint` up to the end of its `try` block.  The inner `createSession`
catches its own exceptions, so nothing is thrown after the mint itself. -/
def mintTry (w : World) (s : State) : Attempt :=
  let s1 := { s with view := View.MINTING }
  let ran := mintGooglePKP w s.googleIdToken
  match ran.result with
  | Except.error err => { state := s1, calls := ran.calls, thrown := some err }
  | Except.ok newPKP =>
    let s2 := { s1 with pkps := s.pkps.add [newPKP] }
    let s3 := { s2 with view := View.MINTED }
    let s4 := { s3 with view := View.CREATING_SESSION }
    let o := createSession w s4 newPKP
    { state := o.state, calls := ran.calls ++ o.calls, thrown := none }

/-- The handler `mint`. -/
def mint (w : World) (s : State) : Outcome :=
  catchBlock (mintTry w s)

/-- The argument object that `signMessage` builds for `executeJs`: the digest of the
message, the session signatures as held, and the public key of the current key record. -/
def executeJsArgs (w : World) (s : State) (currentPKP : PKP) : ExecRequest :=
  let toSign := w.hashMessage s.message
  { code := litActionCode, sessionSigs := s.sessionSigs,
    jsParams := { toSign := toSign, publicKey := currentPKP.publicKey, sigName := "sig1" } }

/-- The `try` block of `signMessage`. -/
def signMessageTry (w : World) (s : State) : Attempt :=
  match s.litNodeClient with
  | none =>
    { state := s, calls := [],
      thrown := some (JSError.TypeError
        "Cannot read properties of undefined (reading \"executeJs\")") }
  | some _ =>
    match s.currentPKP with
    | none =>
      { state := s, calls := [],
        thrown := some (JSError.TypeError
          "Cannot read properties of undefined (reading \"publicKey\")") }
    | some currentPKP =>
      let req := executeJsArgs w s currentPKP
      match w.executeJs req with
      | Except.error err => { state := s, calls := [Call.executeJs req], thrown := some err }
      | Except.ok results =>
        match results.signatures with
        | none =>
          { state := s, calls := [Call.executeJs req],
            thrown := some (JSError.TypeError
              "Cannot read properties of undefined (reading \"sig1\")") }
        | some signatures =>
          match signatures.lookup "sig1" with
          | none =>
            { state := s, calls := [Call.executeJs req],
              thrown := some (JSError.TypeError
                "Cannot destructure property \"dataSigned\" of \"sig\" as it is undefined.") }
          | some sig =>
            match w.joinSignature ("0x" ++ sig.r) ("0x" ++ sig.s) sig.recid with
            | Except.error err =>
              { state := s, calls := [Call.executeJs req], thrown := some err }
            | Except.ok signature =>
              let s1 := { s with signature := some signature }
              match w.verifyMessage s.message signature with
              | Except.error err =>
                { state := s1, calls := [Call.executeJs req], thrown := some err }
              | Except.ok recoveredAddr =>
                let s2 := { s1 with recoveredAddress := some recoveredAddr }
                let verified :=
                  decide (toLowerCase currentPKP.ethAddress = toLowerCase recoveredAddr)
                { state := { s2 with verified := verified },
                  calls := [Call.executeJs req], thrown := none }

/-- The handler `signMessage`. -/
def signMessage (w : World) (s : State) : Outcome :=
  catchBlock (signMessageTry w s)

/-- The click handler of the button "Got it" of the error view. -/
def onClickGotIt (s : State) : State :=
  let s1 :=
    if truthyObj s.sessionSigs then { s with view := View.SESSION_CREATED }
    else
      match truthyStr s.googleIdToken with
      | some _ => { s with view := View.FETCHED }
      | none => { s with view := View.SIGN_IN }
  { s1 with error := ErrorVal.null }

/-! ## Comparison of addresses, as the text of the specification words it -/

/-- Two strings are equal ignoring letter case: they have the same length and, position
by position, their characters differ at most in case. -/
def EqIgnoringCase (a b : String) : Prop :=
  List.Forall₂ (fun c d => c.toLower = d.toLower) a.data b.data

/-! ## Sample collaborators and states

The scenario of the specification: the token `abc`, a relay that knows no key yet,
a mint request `r1` that ends with the record `0xAA / 04bb`, a network that grants
a session and signs. -/

/-- The record the sample relay mints. -/
def samplePKP : PKP := { ethAddress := "0xAA", publicKey := "04bb" }

/-- Session signatures granted by the sample network. -/
def sampleSessionSigs : SessionSigs :=
  { capabilities := [("litAction://*", "capability")], expiration := 1700000000 }

/-- Session signatures whose expiration time is zero: expired at every later time. -/
def expiredSessionSigs : SessionSigs :=
  { capabilities := [("litAction://*", "capability")], expiration := 0 }

/-- The share the sample network returns under the name `sig1`. -/
def sampleShare : SigShare := { r := "11", s := "22", recid := 0, dataSigned := "d0" }

/-- The client the page builds in `initLitNodeClient`. -/
def sampleClient : LitNodeClient := { litNetwork := "serrano", debug := false }

/-- Collaborators that all answer: the scenario in which every step succeeds. -/
def sampleWorld : World where
  handleSignInRedirect := Except.ok "abc"
  fetchPKPs := fun _ => Except.ok { pkps := some (RelayValue.arr []) }
  mintPKP := fun _ => Except.ok { requestId := some "r1" }
  pollRequestUntilTerminalState := fun _ =>
    Except.ok { status := "success", pkpEthAddress := some "0xAA", pkpPublicKey := some "04bb" }
  getSessionSigs := fun _ => Except.ok sampleSessionSigs
  executeJs := fun _ => Except.ok { signatures := some [("sig1", sampleShare)] }
  hashMessage := fun _ => [222, 173]
  joinSignature := fun r s _ => Except.ok (r ++ s)
  verifyMessage := fun _ _ => Except.ok "0xaa"

/-- As `sampleWorld`, but the relay answers the list-keys request with the empty object. -/
def relayWithoutPkpsWorld : World :=
  { sampleWorld with fetchPKPs := fun _ => Except.ok { pkps := none } }

/-- As `sampleWorld`, but the relay already knows two records. -/
def relayWithTwoPkpsWorld : World :=
  { sampleWorld with
    fetchPKPs := fun _ =>
      Except.ok { pkps := some (RelayValue.arr
        [samplePKP, { ethAddress := "0xBB", publicKey := "04cc" }]) } }

/-- As `sampleWorld`, but the relay answers the list-keys request with `pkps` set to `null`. -/
def relayNullPkpsWorld : World :=
  { sampleWorld with fetchPKPs := fun _ => Except.ok { pkps := some RelayValue.null } }

/-- As `sampleWorld`, but the recovery of the signing address throws. -/
def recoveryFailsWorld : World :=
  { sampleWorld with
    verifyMessage := fun _ _ => Except.error (JSError.Error "invalid signature") }

/-- As `sampleWorld`, but the mint response carries no request id. -/
def mintWithoutRequestIdWorld : World :=
  { sampleWorld with mintPKP := fun _ => Except.ok { requestId := none } }

/-- As `sampleWorld`, but the relay knows the request id `r1` only: polling any other
request id throws. -/
def idCheckingRelayWorld : World :=
  { sampleWorld with
    pollRequestUntilTerminalState := fun requestId =>
      if requestId = "r1" then
        Except.ok { status := "success", pkpEthAddress := some "0xAA", pkpPublicKey := some "04bb" }
      else Except.error (JSError.Error "unknown request") }

/-- As `sampleWorld`, but the network refuses to grant a session. -/
def sessionRefusedWorld : World :=
  { sampleWorld with
    getSessionSigs := fun _ => Except.error (JSError.Error "session refused") }

/-- As `sampleWorld`, but the network refuses every execution request. -/
def executionRefusedWorld : World :=
  { sampleWorld with executeJs := fun _ => Except.error (JSError.Error "execution refused") }

/-- As `sampleWorld`, but the execution response names its only share `sig2`. -/
def shareMissingWorld : World :=
  { sampleWorld with executeJs := fun _ => Except.ok { signatures := some [("sig2", sampleShare)] } }

/-- As `sampleWorld`, but the signature recovers to another address. -/
def otherSignerWorld : World :=
  { sampleWorld with verifyMessage := fun _ _ => Except.ok "0xcc" }

/-- The state after sign-in with no key yet: token held, client connected, view `FETCHED`. -/
def fetchedState : State :=
  { initialState with
    view := View.FETCHED, litNodeClient := some sampleClient, googleIdToken := some "abc" }

/-- The state with a session for `samplePKP`: view `SESSION_CREATED`. -/
def sessionState : State :=
  { fetchedState with
    view := View.SESSION_CREATED, currentPKP := some samplePKP,
    sessionSigs := some sampleSessionSigs }

/-- As `sessionState`, but the session signatures held are expired ones. -/
def expiredSessionState : State :=
  { sessionState with sessionSigs := some expiredSessionSigs }

/-- As `sessionState`, but no session signatures are held. -/
def noSessionState : State :=
  { sessionState with sessionSigs := none }

/-! ## Auxiliary facts -/

/-- Lower-casing both strings and comparing is the comparison ignoring letter case. -/
theorem toLowerCase_eq_iff (a b : String) :
    toLowerCase a = toLowerCase b ↔ EqIgnoringCase a b := by
  unfold toLowerCase EqIgnoringCase
  have hinj : (String.mk (a.data.map Char.toLower) = String.mk (b.data.map Char.toLower)) ↔
      a.data.map Char.toLower = b.data.map Char.toLower :=
    ⟨fun h => congrArg String.data h, fun h => congrArg String.mk h⟩
  rw [hinj]
  constructor
  · intro h
    have h2 : List.Forall₂ (fun c d => c = d)
        (a.data.map Char.toLower) (b.data.map Char.toLower) := by
      rw [h]
      exact List.forall₂_refl _
    rw [List.forall₂_map_left_iff, List.forall₂_map_right_iff] at h2
    exact h2
  · intro h
    have h2 : List.Forall₂ (fun c d => c = d)
        (a.data.map Char.toLower) (b.data.map Char.toLower) := by
      rw [List.forall₂_map_left_iff, List.forall₂_map_right_iff]
      exact h
    rw [List.forall₂_eq_eq_eq] at h2
    exact h2

/-- A table that has no pair under a key yields nothing when that key is looked up. -/
theorem lookup_eq_none_of_absent {β : Type} (k : String) :
    ∀ (table : List (String × β)), (∀ v, (k, v) ∉ table) → table.lookup k = none
  | [], _ => rfl
  | (k2, v2) :: rest, h => by
    have hne : k ≠ k2 := by
      intro heq
      exact h v2 (by simp [heq])
    have hrest : ∀ v, (k, v) ∉ rest := fun v hv => h v (List.mem_cons_of_mem _ hv)
    have hbeq : (k == k2) = false := by simpa using hne
    simp [List.lookup, hbeq, lookup_eq_none_of_absent k rest hrest]

/-- The `try` block of `signMessage` writes only `signature`, `recoveredAddress` and
`verified`: every other cell keeps its value. -/
theorem signMessageTry_frame (w : World) (s : State) :
    (signMessageTry w s).state.view = s.view ∧
    (signMessageTry w s).state.error = s.error ∧
    (signMessageTry w s).state.litNodeClient = s.litNodeClient ∧
    (signMessageTry w s).state.googleIdToken = s.googleIdToken ∧
    (signMessageTry w s).state.pkps = s.pkps ∧
    (signMessageTry w s).state.currentPKP = s.currentPKP ∧
    (signMessageTry w s).state.sessionSigs = s.sessionSigs ∧
    (signMessageTry w s).state.message = s.message := by
  unfold signMessageTry
  repeat (first | split | simp)

/-- The `catch` block writes only `error` and `view`. -/
theorem catchBlock_frame (a : Attempt) :
    (catchBlock a).state.litNodeClient = a.state.litNodeClient ∧
    (catchBlock a).state.googleIdToken = a.state.googleIdToken ∧
    (catchBlock a).state.pkps = a.state.pkps ∧
    (catchBlock a).state.currentPKP = a.state.currentPKP ∧
    (catchBlock a).state.sessionSigs = a.state.sessionSigs ∧
    (catchBlock a).state.message = a.state.message ∧
    (catchBlock a).state.signature = a.state.signature ∧
    (catchBlock a).state.recoveredAddress = a.state.recoveredAddress ∧
    (catchBlock a).state.verified = a.state.verified ∧
    (catchBlock a).calls = a.calls := by
  unfold catchBlock
  split <;> simp

/-- After an exception the `catch` block shows the error view and records the exception. -/
theorem catchBlock_thrown (a : Attempt) (err : JSError) (h : a.thrown = some err) :
    (catchBlock a).state.view = View.ERROR ∧
    (catchBlock a).state.error = ErrorVal.thrown err := by
  unfold catchBlock
  rw [h]
  simp

/-- Without an exception the `catch` block changes nothing. -/
theorem catchBlock_ok (a : Attempt) (h : a.thrown = none) :
    (catchBlock a).state = a.state := by
  unfold catchBlock
  rw [h]

/-- The click handler of the error view writes only `view` and `error`. -/
theorem onClickGotIt_frame (s : State) :
    (onClickGotIt s).error = ErrorVal.null ∧
    (onClickGotIt s).litNodeClient = s.litNodeClient ∧
    (onClickGotIt s).googleIdToken = s.googleIdToken ∧
    (onClickGotIt s).pkps = s.pkps ∧
    (onClickGotIt s).currentPKP = s.currentPKP ∧
    (onClickGotIt s).sessionSigs = s.sessionSigs := by
  unfold onClickGotIt
  split
  · simp
  · split <;> simp

/-- The click handler of the error view shows the session view when session signatures
are held. -/
theorem onClickGotIt_view_of_session (s : State) (sigs : SessionSigs)
    (h : s.sessionSigs = some sigs) : (onClickGotIt s).view = View.SESSION_CREATED := by
  simp [onClickGotIt, h, truthyObj]

/-- The click handler of the error view, when no session signatures are held, shows the
key list if the token is a non-empty string and the sign-in view otherwise. -/
theorem onClickGotIt_view_of_no_session (s : State) (h : s.sessionSigs = none) :
    (onClickGotIt s).view =
      (match truthyStr s.googleIdToken with
       | some _ => View.FETCHED
       | none => View.SIGN_IN) := by
  unfold onClickGotIt
  rw [h]
  cases truthyStr s.googleIdToken <;> simp [truthyObj]

/-! ## Signing -/

/-- Every way in which the `try` block of `signMessage` is left by an exception, when a
current key record is held: no client, a refused execution request, a response without
`signatures`, a missing share `sig1`, or a throwing `joinSignature` or `verifyMessage`. -/
theorem signMessageTry_thrown_cases (w : World) (s : State) (pkp : PKP) (err : JSError)
    (hpkp : s.currentPKP = some pkp)
    (h : (signMessageTry w s).thrown = some err) :
    s.litNodeClient = none ∨
    (∃ e, w.executeJs (executeJsArgs w s pkp) = Except.error e) ∨
    (∃ results, w.executeJs (executeJsArgs w s pkp) = Except.ok results ∧
      results.signatures = none) ∨
    (∃ results signatures, w.executeJs (executeJsArgs w s pkp) = Except.ok results ∧
      results.signatures = some signatures ∧ signatures.lookup "sig1" = none) ∨
    (∃ results signatures sig e, w.executeJs (executeJsArgs w s pkp) = Except.ok results ∧
      results.signatures = some signatures ∧ signatures.lookup "sig1" = some sig ∧
      w.joinSignature ("0x" ++ sig.r) ("0x" ++ sig.s) sig.recid = Except.error e) ∨
    (∃ results signatures sig signature e,
      w.executeJs (executeJsArgs w s pkp) = Except.ok results ∧
      results.signatures = some signatures ∧ signatures.lookup "sig1" = some sig ∧
      w.joinSignature ("0x" ++ sig.r) ("0x" ++ sig.s) sig.recid = Except.ok signature ∧
      w.verifyMessage s.message signature = Except.error e) := by
  cases hc : s.litNodeClient with
  | none => exact Or.inl rfl
  | some client =>
    right
    cases hx : w.executeJs (executeJsArgs w s pkp) with
    | error e => exact Or.inl ⟨e, rfl⟩
    | ok results =>
      right
      cases hs : results.signatures with
      | none => exact Or.inl ⟨results, rfl, hs⟩
      | some signatures =>
        right
        cases hl : signatures.lookup "sig1" with
        | none => exact Or.inl ⟨results, signatures, rfl, hs, hl⟩
        | some sig =>
          right
          cases hj : w.joinSignature ("0x" ++ sig.r) ("0x" ++ sig.s) sig.recid with
          | error e => exact Or.inl ⟨results, signatures, sig, e, rfl, hs, hl, hj⟩
          | ok signature =>
            right
            cases hv : w.verifyMessage s.message signature with
            | error e => exact ⟨results, signatures, sig, signature, e, rfl, hs, hl, hj, hv⟩
            | ok recoveredAddr =>
              simp [signMessageTry, hc, hpkp, hx, hs, hl, hj, hv] at h

/-- C1: from the session view with session signatures and a current key record held,
when `signMessage` fails, that is when the network execution throws or any later step
does (the response has no `signatures`, the share `sig1` is missing, `joinSignature`
throws, `verifyMessage` throws), or when no client is connected, then an exception leaves
the `try` block, the error view is shown with that exception recorded, and `sessionSigs`
and `currentPKP` are as they were; the click on "Got it" then shows exactly the session
view and clears the error, again without touching `sessionSigs` or `currentPKP`.  The
exception recorded after a throw of `executeJs`, `joinSignature` or `verifyMessage` is
the one thrown. -/
theorem signMessage_failure_returns_to_session (w : World) (s : State)
    (sigs : SessionSigs) (pkp : PKP)
    (_hview : s.view = View.SESSION_CREATED)
    (hsigs : s.sessionSigs = some sigs)
    (hpkp : s.currentPKP = some pkp)
    (hfail :
      s.litNodeClient = none ∨
      (∃ e, w.executeJs (executeJsArgs w s pkp) = Except.error e) ∨
      (∃ results, w.executeJs (executeJsArgs w s pkp) = Except.ok results ∧
        results.signatures = none) ∨
      (∃ results signatures, w.executeJs (executeJsArgs w s pkp) = Except.ok results ∧
        results.signatures = some signatures ∧ signatures.lookup "sig1" = none) ∨
      (∃ results signatures sig e, w.executeJs (executeJsArgs w s pkp) = Except.ok results ∧
        results.signatures = some signatures ∧ signatures.lookup "sig1" = some sig ∧
        w.joinSignature ("0x" ++ sig.r) ("0x" ++ sig.s) sig.recid = Except.error e) ∨
      (∃ results signatures sig signature e,
        w.executeJs (executeJsArgs w s pkp) = Except.ok results ∧
        results.signatures = some signatures ∧ signatures.lookup "sig1" = some sig ∧
        w.joinSignature ("0x" ++ sig.r) ("0x" ++ sig.s) sig.recid = Except.ok signature ∧
        w.verifyMessage s.message signature = Except.error e)) :
    (∃ err, (signMessageTry w s).thrown = some err ∧
      (signMessage w s).state.error = ErrorVal.thrown err) ∧
    (signMessage w s).state.view = View.ERROR ∧
    (signMessage w s).state.sessionSigs = some sigs ∧
    (signMessage w s).state.currentPKP = some pkp ∧
    (onClickGotIt (signMessage w s).state).view = View.SESSION_CREATED ∧
    (onClickGotIt (signMessage w s).state).error = ErrorVal.null ∧
    (onClickGotIt (signMessage w s).state).sessionSigs = some sigs ∧
    (onClickGotIt (signMessage w s).state).currentPKP = some pkp ∧
    (∀ client e, s.litNodeClient = some client →
      w.executeJs (executeJsArgs w s pkp) = Except.error e →
      (signMessage w s).state.error = ErrorVal.thrown e) ∧
    (∀ client results signatures sig e, s.litNodeClient = some client →
      w.executeJs (executeJsArgs w s pkp) = Except.ok results →
      results.signatures = some signatures → signatures.lookup "sig1" = some sig →
      w.joinSignature ("0x" ++ sig.r) ("0x" ++ sig.s) sig.recid = Except.error e →
      (signMessage w s).state.error = ErrorVal.thrown e) ∧
    (∀ client results signatures sig signature e, s.litNodeClient = some client →
      w.executeJs (executeJsArgs w s pkp) = Except.ok results →
      results.signatures = some signatures → signatures.lookup "sig1" = some sig →
      w.joinSignature ("0x" ++ sig.r) ("0x" ++ sig.s) sig.recid = Except.ok signature →
      w.verifyMessage s.message signature = Except.error e →
      (signMessage w s).state.error = ErrorVal.thrown e) := by
  have hex : ∃ err, (signMessageTry w s).thrown = some err := by
    cases hc : s.litNodeClient with
    | none => simp [signMessageTry, hc]
    | some client =>
      rcases hfail with h | ⟨e, h⟩ | ⟨results, h, h2⟩ | ⟨results, signatures, h, h2, h3⟩ |
        ⟨results, signatures, sig, e, h, h2, h3, h4⟩ |
        ⟨results, signatures, sig, signature, e, h, h2, h3, h4, h5⟩
      · rw [hc] at h
        cases h
      · simp [signMessageTry, hc, hpkp, h]
      · simp [signMessageTry, hc, hpkp, h, h2]
      · simp [signMessageTry, hc, hpkp, h, h2, h3]
      · simp [signMessageTry, hc, hpkp, h, h2, h3, h4]
      · simp [signMessageTry, hc, hpkp, h, h2, h3, h4, h5]
  obtain ⟨err, herr⟩ := hex
  have hframe := signMessageTry_frame w s
  have hcatch := catchBlock_frame (signMessageTry w s)
  have hthrown := catchBlock_thrown (signMessageTry w s) err herr
  have hsigs2 : (signMessage w s).state.sessionSigs = some sigs := by
    unfold signMessage
    rw [hcatch.2.2.2.2.1, hframe.2.2.2.2.2.2.1, hsigs]
  have hpkp2 : (signMessage w s).state.currentPKP = some pkp := by
    unfold signMessage
    rw [hcatch.2.2.2.1, hframe.2.2.2.2.2.1, hpkp]
  have hclick := onClickGotIt_frame (signMessage w s).state
  refine ⟨⟨err, herr, hthrown.2⟩, hthrown.1, hsigs2, hpkp2, ?_, hclick.1, ?_, ?_, ?_, ?_, ?_⟩
  · exact onClickGotIt_view_of_session _ sigs hsigs2
  · rw [hclick.2.2.2.2.2, hsigs2]
  · rw [hclick.2.2.2.2.1, hpkp2]
  · intro client e hc h
    simp [signMessage, signMessageTry, catchBlock, hc, hpkp, h]
  · intro client results signatures sig e hc h h2 h3 h4
    simp [signMessage, signMessageTry, catchBlock, hc, hpkp, h, h2, h3, h4]
  · intro client results signatures sig signature e hc h h2 h3 h4 h5
    simp [signMessage, signMessageTry, catchBlock, hc, hpkp, h, h2, h3, h4, h5]

/-- Witness of C1: a user holds a session; in one world the network refuses the
execution request, in another the request is answered and the recovery of the address
throws afterwards. -/
theorem signMessage_failure_returns_to_session_witness :
    sessionState.view = View.SESSION_CREATED ∧
    ((signMessage executionRefusedWorld sessionState).state.view = View.ERROR ∧
      (signMessage executionRefusedWorld sessionState).state.error =
        ErrorVal.thrown (JSError.Error "execution refused") ∧
      (signMessage executionRefusedWorld sessionState).state.sessionSigs =
        some sampleSessionSigs ∧
      (signMessage executionRefusedWorld sessionState).state.currentPKP = some samplePKP ∧
      (onClickGotIt (signMessage executionRefusedWorld sessionState).state).view =
        View.SESSION_CREATED ∧
      (onClickGotIt (signMessage executionRefusedWorld sessionState).state).error =
        ErrorVal.null) ∧
    ((signMessage recoveryFailsWorld sessionState).state.view = View.ERROR ∧
      (signMessage recoveryFailsWorld sessionState).state.error =
        ErrorVal.thrown (JSError.Error "invalid signature") ∧
      (signMessage recoveryFailsWorld sessionState).state.sessionSigs =
        some sampleSessionSigs ∧
      (signMessage recoveryFailsWorld sessionState).state.currentPKP = some samplePKP ∧
      (onClickGotIt (signMessage recoveryFailsWorld sessionState).state).view =
        View.SESSION_CREATED ∧
      (onClickGotIt (signMessage recoveryFailsWorld sessionState).state).error =
        ErrorVal.null) :=
  have refused := signMessage_failure_returns_to_session executionRefusedWorld sessionState
    sampleSessionSigs samplePKP rfl rfl rfl
    (Or.inr (Or.inl ⟨JSError.Error "execution refused", rfl⟩))
  have recovery := signMessage_failure_returns_to_session recoveryFailsWorld sessionState
    sampleSessionSigs samplePKP rfl rfl rfl
    (Or.inr (Or.inr (Or.inr (Or.inr (Or.inr
      ⟨{ signatures := some [("sig1", sampleShare)] }, [("sig1", sampleShare)], sampleShare,
        "0x110x22", JSError.Error "invalid signature", rfl, rfl, rfl, rfl, rfl⟩)))))
  ⟨rfl,
    ⟨refused.2.1, refused.2.2.2.2.2.2.2.2.1 sampleClient _ rfl rfl, refused.2.2.1,
      refused.2.2.2.1, refused.2.2.2.2.1, refused.2.2.2.2.2.1⟩,
    ⟨recovery.2.1,
      recovery.2.2.2.2.2.2.2.2.2.2 sampleClient { signatures := some [("sig1", sampleShare)] }
        [("sig1", sampleShare)] sampleShare "0x110x22" _ rfl rfl rfl rfl rfl rfl,
      recovery.2.2.1, recovery.2.2.2.1, recovery.2.2.2.2.1, recovery.2.2.2.2.2.1⟩⟩

/-- C4: when the network answers the execution request, the share `sig1` is there, the
signature is assembled and an address is recovered from it, `signMessage` sets
`verified` to true exactly when the address of the current key record and the recovered
address are equal ignoring letter case, and to false otherwise; no exception leaves the
`try` block, so `error` and `view` keep their values and the error view is not shown. -/
theorem signMessage_verified_iff_addresses_match (w : World) (s : State)
    (client : LitNodeClient) (pkp : PKP) (results : ExecResults)
    (signatures : List (String × SigShare)) (sig : SigShare)
    (signature recoveredAddr : String)
    (hclient : s.litNodeClient = some client)
    (hpkp : s.currentPKP = some pkp)
    (hexec : w.executeJs (executeJsArgs w s pkp) = Except.ok results)
    (hsigs : results.signatures = some signatures)
    (hsig : signatures.lookup "sig1" = some sig)
    (hjoin : w.joinSignature ("0x" ++ sig.r) ("0x" ++ sig.s) sig.recid = Except.ok signature)
    (hrec : w.verifyMessage s.message signature = Except.ok recoveredAddr) :
    ((signMessage w s).state.verified = true ↔ EqIgnoringCase pkp.ethAddress recoveredAddr) ∧
    (¬ EqIgnoringCase pkp.ethAddress recoveredAddr → (signMessage w s).state.verified = false) ∧
    (signMessageTry w s).thrown = none ∧
    (signMessage w s).state.error = s.error ∧
    (signMessage w s).state.view = s.view ∧
    (signMessage w s).state.signature = some signature ∧
    (signMessage w s).state.recoveredAddress = some recoveredAddr := by
  have hrun : signMessageTry w s =
      { state := { s with signature := some signature, recoveredAddress := some recoveredAddr,
                          verified := decide (toLowerCase pkp.ethAddress = toLowerCase recoveredAddr) },
        calls := [Call.executeJs (executeJsArgs w s pkp)], thrown := none } := by
    simp [signMessageTry, hclient, hpkp, hexec, hsigs, hsig, hjoin, hrec]
  unfold signMessage
  rw [hrun]
  simp [catchBlock, toLowerCase_eq_iff]

/-- Witness of C4: in the sample scenario the recovered address `0xaa` matches the
address `0xAA` of the current key record up to letter case. -/
theorem signMessage_verified_iff_addresses_match_witness :
    ((signMessage sampleWorld sessionState).state.verified = true ↔
      EqIgnoringCase samplePKP.ethAddress "0xaa") ∧
    (¬ EqIgnoringCase samplePKP.ethAddress "0xaa" →
      (signMessage sampleWorld sessionState).state.verified = false) ∧
    (signMessageTry sampleWorld sessionState).thrown = none ∧
    (signMessage sampleWorld sessionState).state.error = sessionState.error ∧
    (signMessage sampleWorld sessionState).state.view = sessionState.view ∧
    (signMessage sampleWorld sessionState).state.signature = some "0x110x22" ∧
    (signMessage sampleWorld sessionState).state.recoveredAddress = some "0xaa" :=
  signMessage_verified_iff_addresses_match sampleWorld sessionState sampleClient samplePKP
    { signatures := some [("sig1", sampleShare)] } [("sig1", sampleShare)] sampleShare
    "0x110x22" "0xaa" rfl rfl rfl rfl rfl rfl rfl

/-- C9: when the signatures object of the execution response has no share named `sig1`,
`signMessage` fails: the error view is shown with an exception recorded, and
`signature`, `recoveredAddress` and `verified` keep their values.  When the request was
in fact sent (a client and a current key record are held) the exception is the
`TypeError` of reading a field of the missing share. -/
theorem signMessage_fails_without_named_share (w : World) (s : State)
    (results : ExecResults) (signatures : List (String × SigShare))
    (hexec : ∀ req, w.executeJs req = Except.ok results)
    (hsigs : results.signatures = some signatures)
    (hmiss : ∀ share, ("sig1", share) ∉ signatures) :
    (signMessage w s).state.view = View.ERROR ∧
    (∃ err, (signMessage w s).state.error = ErrorVal.thrown err) ∧
    (signMessage w s).state.signature = s.signature ∧
    (signMessage w s).state.recoveredAddress = s.recoveredAddress ∧
    (signMessage w s).state.verified = s.verified ∧
    (∀ client pkp, s.litNodeClient = some client → s.currentPKP = some pkp →
      (signMessage w s).state.error = ErrorVal.thrown (JSError.TypeError
        "Cannot destructure property \"dataSigned\" of \"sig\" as it is undefined.")) := by
  have hlook : signatures.lookup "sig1" = none := lookup_eq_none_of_absent "sig1" signatures hmiss
  unfold signMessage signMessageTry
  cases hc : s.litNodeClient with
  | none => simp [catchBlock]
  | some client =>
    cases hp : s.currentPKP with
    | none => simp [catchBlock]
    | some pkp => simp [catchBlock, hexec, hsigs, hlook]

/-- Witness of C9: the sample network answers with a single share named `sig2`. -/
theorem signMessage_fails_without_named_share_witness :
    (signMessage shareMissingWorld sessionState).state.view = View.ERROR ∧
    (∃ err, (signMessage shareMissingWorld sessionState).state.error = ErrorVal.thrown err) ∧
    (signMessage shareMissingWorld sessionState).state.signature = sessionState.signature ∧
    (signMessage shareMissingWorld sessionState).state.recoveredAddress =
      sessionState.recoveredAddress ∧
    (signMessage shareMissingWorld sessionState).state.verified = sessionState.verified ∧
    (∀ client pkp, sessionState.litNodeClient = some client →
      sessionState.currentPKP = some pkp →
      (signMessage shareMissingWorld sessionState).state.error =
        ErrorVal.thrown (JSError.TypeError
          "Cannot destructure property \"dataSigned\" of \"sig\" as it is undefined.")) :=
  signMessage_fails_without_named_share shareMissingWorld sessionState
    { signatures := some [("sig2", sampleShare)] } [("sig2", sampleShare)]
    (fun _ => rfl) rfl (by simp)

/-- Counterexample to C10: with no session signatures held, and likewise with expired
ones, `signMessage` sends the execution request all the same, carrying `sessionSigs` as
held; when the network answers, the signing succeeds and no error is shown, and when the
network refuses, the error view is shown: the outcome follows the network. -/
theorem signMessage_submits_without_valid_session :
    noSessionState.sessionSigs = none ∧
    (signMessage sampleWorld noSessionState).calls =
      [Call.executeJs (executeJsArgs sampleWorld noSessionState samplePKP)] ∧
    (executeJsArgs sampleWorld noSessionState samplePKP).sessionSigs = none ∧
    (signMessage sampleWorld noSessionState).state.view = View.SESSION_CREATED ∧
    (signMessage sampleWorld noSessionState).state.error = ErrorVal.undefined ∧
    (signMessage sampleWorld noSessionState).state.signature = some "0x110x22" ∧
    (signMessage executionRefusedWorld noSessionState).state.view = View.ERROR ∧
    expiredSessionState.sessionSigs = some expiredSessionSigs ∧
    expiredSessionSigs.expiration = 0 ∧
    (signMessage sampleWorld expiredSessionState).calls =
      [Call.executeJs (executeJsArgs sampleWorld expiredSessionState samplePKP)] ∧
    (signMessage sampleWorld expiredSessionState).state.view = View.SESSION_CREATED ∧
    (signMessage sampleWorld expiredSessionState).state.error = ErrorVal.undefined :=
  ⟨rfl, rfl, rfl, rfl, rfl, rfl, rfl, rfl, rfl, rfl, rfl, rfl⟩

/-- C10, amended: `signMessage` makes no check of the session signatures.  Whenever a
client and a current key record are held it sends exactly one execution request, which
carries `sessionSigs` as held (unset, expired or valid); it shows the error view, with the
exception recorded, when the network refuses that request. -/
theorem signMessage_always_submits (w : World) (s : State)
    (client : LitNodeClient) (pkp : PKP)
    (hclient : s.litNodeClient = some client)
    (hpkp : s.currentPKP = some pkp) :
    (signMessage w s).calls = [Call.executeJs (executeJsArgs w s pkp)] ∧
    (executeJsArgs w s pkp).sessionSigs = s.sessionSigs ∧
    (∀ err, w.executeJs (executeJsArgs w s pkp) = Except.error err →
      (signMessage w s).state.view = View.ERROR ∧
      (signMessage w s).state.error = ErrorVal.thrown err) := by
  refine ⟨?_, rfl, ?_⟩
  · unfold signMessage
    rw [(catchBlock_frame (signMessageTry w s)).2.2.2.2.2.2.2.2.2]
    unfold signMessageTry
    simp only [hclient, hpkp]
    repeat (first | split | rfl)
  · intro err herr
    have hrun : signMessageTry w s =
        { state := s, calls := [Call.executeJs (executeJsArgs w s pkp)], thrown := some err } := by
      simp [signMessageTry, hclient, hpkp, herr]
    unfold signMessage
    rw [hrun]
    simp [catchBlock]

/-- Witness of the amended C10: no session signatures are held, the request is sent and
the network refuses it. -/
theorem signMessage_always_submits_witness :
    (signMessage executionRefusedWorld noSessionState).calls =
      [Call.executeJs (executeJsArgs executionRefusedWorld noSessionState samplePKP)] ∧
    (executeJsArgs executionRefusedWorld noSessionState samplePKP).sessionSigs =
      noSessionState.sessionSigs ∧
    (signMessage executionRefusedWorld noSessionState).state.view = View.ERROR ∧
    (signMessage executionRefusedWorld noSessionState).state.error =
      ErrorVal.thrown (JSError.Error "execution refused") :=
  have h := signMessage_always_submits executionRefusedWorld noSessionState
    sampleClient samplePKP rfl rfl
  ⟨h.1, h.2.1, h.2.2 (JSError.Error "execution refused") rfl⟩

/-! ## Relay helpers -/

/-- Counterexample to C3: the relay answers with the field `pkps` present and set to
`null`; `fetchGooglePKPs` fails with the error "Unable to fetch PKPs through relay
server" although the response has a `pkps` field. -/
theorem fetchGooglePKPs_fails_with_null_field :
    relayNullPkpsWorld.fetchPKPs { idToken := some "abc" } =
      Except.ok { pkps := some RelayValue.null } ∧
    ({ pkps := some RelayValue.null } : FetchRes).pkps ≠ none ∧
    (fetchGooglePKPs relayNullPkpsWorld (some "abc")).result =
      Except.error (JSError.Error "Unable to fetch PKPs through relay server") :=
  ⟨rfl, by decide, rfl⟩

/-- C3, amended: given the relay response to the list-keys request, `fetchGooglePKPs`
fails exactly when the response has no `pkps` field or the field holds a falsy value
(`null`, `false`, `0` or the empty string), and then with the error "Unable to fetch PKPs
through relay server"; whenever `pkps` is a sequence, the empty one included, that
sequence is returned as it is, and so is every other truthy value. -/
theorem fetchGooglePKPs_fails_iff_absent_or_falsy (w : World) (idToken : Option String)
    (fetchRes : FetchRes)
    (hres : w.fetchPKPs { idToken := idToken } = Except.ok fetchRes) :
    ((∃ err, (fetchGooglePKPs w idToken).result = Except.error err) ↔
      (fetchRes.pkps = none ∨ fetchRes.pkps = some RelayValue.null ∨
       fetchRes.pkps = some (RelayValue.bool false) ∨
       fetchRes.pkps = some (RelayValue.num 0) ∨
       fetchRes.pkps = some (RelayValue.str ""))) ∧
    ((∃ err, (fetchGooglePKPs w idToken).result = Except.error err) →
      (fetchGooglePKPs w idToken).result =
        Except.error (JSError.Error "Unable to fetch PKPs through relay server")) ∧
    (∀ items, fetchRes.pkps = some (RelayValue.arr items) →
      (fetchGooglePKPs w idToken).result = Except.ok (RelayValue.arr items)) ∧
    (fetchRes.pkps = some (RelayValue.arr []) →
      (fetchGooglePKPs w idToken).result = Except.ok (RelayValue.arr [])) ∧
    (∀ value, fetchRes.pkps = some value →
      (¬ ∃ err, (fetchGooglePKPs w idToken).result = Except.error err) →
      (fetchGooglePKPs w idToken).result = Except.ok value) ∧
    (fetchGooglePKPs w idToken).calls = [Call.fetchPKPs { idToken := idToken }] := by
  unfold fetchGooglePKPs
  simp only [hres]
  cases hp : fetchRes.pkps with
  | none => simp
  | some value =>
    cases value with
    | null => simp [RelayValue.truthy]
    | bool b => cases b <;> simp [RelayValue.truthy]
    | num n =>
      by_cases hn : n = 0
      · subst hn
        simp [RelayValue.truthy]
      · simp [RelayValue.truthy, hn]
    | str t =>
      by_cases ht : t = ""
      · subst ht
        simp [RelayValue.truthy]
      · simp [RelayValue.truthy, ht]
    | arr items => simp [RelayValue.truthy]

/-- Witness of the amended C3: the relay answers with the empty object, and `fetchGooglePKPs`
fails. -/
theorem fetchGooglePKPs_fails_iff_absent_or_falsy_witness :
    (∃ err, (fetchGooglePKPs relayWithoutPkpsWorld (some "abc")).result = Except.error err) ∧
    (fetchGooglePKPs relayWithoutPkpsWorld (some "abc")).result =
      Except.error (JSError.Error "Unable to fetch PKPs through relay server") ∧
    (fetchGooglePKPs relayWithoutPkpsWorld (some "abc")).calls =
      [Call.fetchPKPs { idToken := some "abc" }] :=
  have h := fetchGooglePKPs_fails_iff_absent_or_falsy relayWithoutPkpsWorld (some "abc")
    { pkps := none } rfl
  ⟨h.1.2 (Or.inl rfl), h.2.1 (h.1.2 (Or.inl rfl)), h.2.2.2.2.2⟩

/-- A value that is `undefined` or a string is truthy exactly when it is a non-empty
string, and `truthyStr` then returns that string. -/
theorem truthyStr_eq_some_iff (v : Option String) (x : String) :
    truthyStr v = some x ↔ v = some x ∧ x ≠ "" := by
  cases v with
  | none => simp [truthyStr]
  | some y =>
    by_cases hy : y = ""
    · subst hy
      simp only [truthyStr, if_true]
      constructor
      · intro h
        cases h
      · intro h
        exact absurd (Option.some.inj h.1).symm h.2
    · simp only [truthyStr, hy, if_false]
      constructor
      · intro h
        have hxy : y = x := Option.some.inj h
        subst hxy
        exact ⟨rfl, hy⟩
      · intro h
        exact h.1

/-- A value that is `undefined` or a string is falsy exactly when it is `undefined` or
the empty string. -/
theorem truthyStr_eq_none_iff (v : Option String) :
    truthyStr v = none ↔ v = none ∨ v = some "" := by
  cases v with
  | none => simp [truthyStr]
  | some y =>
    by_cases hy : y = ""
    · subst hy
      simp [truthyStr]
    · simp [truthyStr, hy]

/-- C6: given the mint response and the poll response to the request id that the mint
response carries, `mintGooglePKP` returns a record exactly when that request id is a
non-empty string and the poll response has both a non-empty `pkpEthAddress` and a
non-empty `pkpPublicKey`; the record is then made of exactly these two strings, after one
mint request and one poll of that very request id; in every other case it fails with the
error "Unable to mint PKP through relay server", and when the request id is missing or
empty it fails after the mint request alone, without polling. -/
theorem mintGooglePKP_returns_iff_complete (w : World) (idToken : Option String)
    (mintRes : MintRes) (pollRes : PollRes)
    (hmint : w.mintPKP { idToken := idToken } = Except.ok mintRes)
    (hpoll : ∀ requestId, mintRes.requestId = some requestId →
      w.pollRequestUntilTerminalState requestId = Except.ok pollRes) :
    ((∃ pkp, (mintGooglePKP w idToken).result = Except.ok pkp) ↔
      ((∃ requestId, mintRes.requestId = some requestId ∧ requestId ≠ "") ∧
       (∃ ethAddress, pollRes.pkpEthAddress = some ethAddress ∧ ethAddress ≠ "") ∧
       (∃ publicKey, pollRes.pkpPublicKey = some publicKey ∧ publicKey ≠ ""))) ∧
    (∀ requestId ethAddress publicKey,
      mintRes.requestId = some requestId → requestId ≠ "" →
      pollRes.pkpEthAddress = some ethAddress → ethAddress ≠ "" →
      pollRes.pkpPublicKey = some publicKey → publicKey ≠ "" →
      (mintGooglePKP w idToken).result =
        Except.ok { ethAddress := ethAddress, publicKey := publicKey } ∧
      (mintGooglePKP w idToken).calls =
        [Call.mintPKP { idToken := idToken }, Call.pollRequestUntilTerminalState requestId]) ∧
    ((¬ ∃ pkp, (mintGooglePKP w idToken).result = Except.ok pkp) →
      (mintGooglePKP w idToken).result =
        Except.error (JSError.Error "Unable to mint PKP through relay server")) ∧
    ((mintRes.requestId = none ∨ mintRes.requestId = some "") →
      (mintGooglePKP w idToken).result =
        Except.error (JSError.Error "Unable to mint PKP through relay server") ∧
      (mintGooglePKP w idToken).calls = [Call.mintPKP { idToken := idToken }]) := by
  unfold mintGooglePKP
  simp only [hmint]
  cases hid : truthyStr mintRes.requestId with
  | none =>
    have hid2 := (truthyStr_eq_none_iff _).1 hid
    refine ⟨?_, ?_, ?_, ?_⟩
    · simp only [reduceCtorEq, exists_false, false_iff, not_and]
      intro hreq
      obtain ⟨requestId, h1, h2⟩ := hreq
      rcases hid2 with h | h
      · rw [h] at h1
        cases h1
      · rw [h] at h1
        exact absurd (Option.some.inj h1).symm h2
    · intro requestId ethAddress publicKey h1 h2
      rcases hid2 with h | h
      · rw [h] at h1
        cases h1
      · rw [h] at h1
        exact absurd (Option.some.inj h1).symm h2
    · intro _
      rfl
    · intro _
      exact ⟨rfl, rfl⟩
  | some requestId =>
    have hid2 := (truthyStr_eq_some_iff _ _).1 hid
    have hnot : ¬ (mintRes.requestId = none ∨ mintRes.requestId = some "") := by
      intro h
      rcases h with h | h
      · rw [h] at hid2
        cases hid2.1
      · rw [h] at hid2
        exact hid2.2 (Option.some.inj hid2.1).symm
    simp only [hpoll requestId hid2.1]
    cases ha : truthyStr pollRes.pkpEthAddress with
    | none =>
      have ha2 := (truthyStr_eq_none_iff _).1 ha
      refine ⟨?_, ?_, ?_, fun h => absurd h hnot⟩
      · simp only [reduceCtorEq, exists_false, false_iff, not_and]
        intro _ haddr
        obtain ⟨ethAddress, h1, h2⟩ := haddr
        rcases ha2 with h | h
        · rw [h] at h1
          cases h1
        · rw [h] at h1
          exact absurd (Option.some.inj h1).symm h2
      · intro _ ethAddress _ _ _ h1 h2
        rcases ha2 with h | h
        · rw [h] at h1
          cases h1
        · rw [h] at h1
          exact absurd (Option.some.inj h1).symm h2
      · intro _
        rfl
    | some ethAddress =>
      have ha2 := (truthyStr_eq_some_iff _ _).1 ha
      cases hk : truthyStr pollRes.pkpPublicKey with
      | none =>
        have hk2 := (truthyStr_eq_none_iff _).1 hk
        refine ⟨?_, ?_, ?_, fun h => absurd h hnot⟩
        · simp only [reduceCtorEq, exists_false, false_iff, not_and]
          intro _ _ hkey
          obtain ⟨publicKey, h1, h2⟩ := hkey
          rcases hk2 with h | h
          · rw [h] at h1
            cases h1
          · rw [h] at h1
            exact absurd (Option.some.inj h1).symm h2
        · intro _ _ publicKey _ _ _ _ h1 h2
          rcases hk2 with h | h
          · rw [h] at h1
            cases h1
          · rw [h] at h1
            exact absurd (Option.some.inj h1).symm h2
        · intro _
          rfl
      | some publicKey =>
        have hk2 := (truthyStr_eq_some_iff _ _).1 hk
        refine ⟨?_, ?_, ?_, fun h => absurd h hnot⟩
        · constructor
          · intro _
            exact ⟨⟨requestId, hid2⟩, ⟨ethAddress, ha2⟩, ⟨publicKey, hk2⟩⟩
          · intro _
            exact ⟨_, rfl⟩
        · intro requestId2 ethAddress2 publicKey2 h1 _ h3 _ h5 _
          rw [hid2.1] at h1
          rw [ha2.1] at h3
          rw [hk2.1] at h5
          cases h1
          cases h3
          cases h5
          exact ⟨rfl, rfl⟩
        · intro h
          exact absurd ⟨_, rfl⟩ h

/-- Witness of C6: a relay that returns the request id `r1` and answers the poll of
`r1` only, with the complete record; a relay whose mint response carries no request id
is never polled. -/
theorem mintGooglePKP_returns_iff_complete_witness :
    ((mintGooglePKP idCheckingRelayWorld (some "abc")).result =
        Except.ok { ethAddress := "0xAA", publicKey := "04bb" } ∧
      (mintGooglePKP idCheckingRelayWorld (some "abc")).calls =
        [Call.mintPKP { idToken := some "abc" }, Call.pollRequestUntilTerminalState "r1"]) ∧
    ((mintGooglePKP mintWithoutRequestIdWorld (some "abc")).result =
        Except.error (JSError.Error "Unable to mint PKP through relay server") ∧
      (mintGooglePKP mintWithoutRequestIdWorld (some "abc")).calls =
        [Call.mintPKP { idToken := some "abc" }]) :=
  ⟨(mintGooglePKP_returns_iff_complete idCheckingRelayWorld (some "abc")
      { requestId := some "r1" }
      { status := "success", pkpEthAddress := some "0xAA", pkpPublicKey := some "04bb" }
      rfl (fun requestId h => by cases h; rfl)).2.1 "r1" "0xAA" "04bb" rfl (by decide) rfl (by decide) rfl
      (by decide),
    (mintGooglePKP_returns_iff_complete mintWithoutRequestIdWorld (some "abc")
      { requestId := none }
      { status := "success", pkpEthAddress := some "0xAA", pkpPublicKey := some "04bb" }
      rfl (fun _ _ => rfl)).2.2.2 (Or.inl rfl)⟩

/-! ## Sign-in redirect -/

/-- C8: from the initial state, when the token is extracted and the relay returns a
sequence of records of any length, `handleRedirect` ends in the view `FETCHED` with the
token stored and the held collection equal to the returned sequence; for the empty
sequence the held collection is empty. -/
theorem handleRedirect_success_holds_returned_keys (w : World) (token : String)
    (fetchRes : FetchRes) (pkps : List PKP)
    (htoken : w.handleSignInRedirect = Except.ok token)
    (hres : w.fetchPKPs { idToken := some token } = Except.ok fetchRes)
    (hpkps : fetchRes.pkps = some (RelayValue.arr pkps)) :
    (handleRedirect w initialState).state.view = View.FETCHED ∧
    (handleRedirect w initialState).state.googleIdToken = some token ∧
    (handleRedirect w initialState).state.pkps = PKPsVal.arr pkps ∧
    (handleRedirect w initialState).state.error = ErrorVal.undefined ∧
    (pkps = [] → (handleRedirect w initialState).state.pkps = PKPsVal.arr []) := by
  have hfetch : fetchGooglePKPs w (some token) =
      { result := Except.ok (RelayValue.arr pkps),
        calls := [Call.fetchPKPs { idToken := some token }] } := by
    simp [fetchGooglePKPs, hres, hpkps, RelayValue.truthy]
  have hkeys : (handleRedirect w initialState).state.pkps = PKPsVal.arr pkps := by
    cases pkps with
    | nil => simp [handleRedirect, handleRedirectTry, htoken, hfetch, catchBlock, initialState]
    | cons p rest =>
      simp [handleRedirect, handleRedirectTry, htoken, hfetch, catchBlock]
  refine ⟨?_, ?_, hkeys, ?_, ?_⟩
  · simp [handleRedirect, handleRedirectTry, htoken, hfetch, catchBlock]
  · by_cases hlen : pkps.length > 0 <;>
      simp [handleRedirect, handleRedirectTry, htoken, hfetch, catchBlock, hlen]
  · by_cases hlen : pkps.length > 0 <;>
      simp [handleRedirect, handleRedirectTry, htoken, hfetch, catchBlock, hlen, initialState]
  · intro hnil
    rw [hkeys, hnil]

/-- Witness of C8: the token `abc` and a relay that knows no key yet. -/
theorem handleRedirect_success_holds_returned_keys_witness :
    (handleRedirect sampleWorld initialState).state.view = View.FETCHED ∧
    (handleRedirect sampleWorld initialState).state.googleIdToken = some "abc" ∧
    (handleRedirect sampleWorld initialState).state.pkps = PKPsVal.arr [] ∧
    (handleRedirect sampleWorld initialState).state.error = ErrorVal.undefined ∧
    (([] : List PKP) = [] →
      (handleRedirect sampleWorld initialState).state.pkps = PKPsVal.arr []) :=
  handleRedirect_success_holds_returned_keys sampleWorld "abc"
    { pkps := some (RelayValue.arr []) } [] rfl rfl rfl

/-- Counterexample to C5: the token `abc` is extracted, the relay answers the list-keys
request with the empty object, the error view is shown, and the click on "Got it" leads to
the view `FETCHED`, not to `SIGN_IN`. -/
theorem handleRedirect_listing_failure_returns_to_fetched :
    relayWithoutPkpsWorld.handleSignInRedirect = Except.ok "abc" ∧
    (fetchGooglePKPs relayWithoutPkpsWorld (some "abc")).result =
      Except.error (JSError.Error "Unable to fetch PKPs through relay server") ∧
    (handleRedirect relayWithoutPkpsWorld initialState).state.view = View.ERROR ∧
    (onClickGotIt (handleRedirect relayWithoutPkpsWorld initialState).state).view =
      View.FETCHED ∧
    (onClickGotIt (handleRedirect relayWithoutPkpsWorld initialState).state).view ≠
      View.SIGN_IN :=
  ⟨rfl, rfl, rfl, rfl, by decide⟩

/-- C5, amended: from the initial state, when the token is extracted and the key listing
then fails, the error view is shown with the exception recorded, and the token is already
stored; the click on "Got it" clears the error and leads to the view `FETCHED` when the
token is a non-empty string, to `SIGN_IN` when it is the empty string. -/
theorem handleRedirect_listing_failure (w : World) (token : String) (err : JSError)
    (htoken : w.handleSignInRedirect = Except.ok token)
    (hfail : (fetchGooglePKPs w (some token)).result = Except.error err) :
    (handleRedirect w initialState).state.view = View.ERROR ∧
    (handleRedirect w initialState).state.error = ErrorVal.thrown err ∧
    (handleRedirect w initialState).state.googleIdToken = some token ∧
    (handleRedirect w initialState).state.sessionSigs = none ∧
    (handleRedirect w initialState).state.pkps = PKPsVal.arr [] ∧
    (onClickGotIt (handleRedirect w initialState).state).error = ErrorVal.null ∧
    (token ≠ "" →
      (onClickGotIt (handleRedirect w initialState).state).view = View.FETCHED) ∧
    (token = "" →
      (onClickGotIt (handleRedirect w initialState).state).view = View.SIGN_IN) := by
  have hrun : (handleRedirect w initialState).state =
      { initialState with
        googleIdToken := some token, error := ErrorVal.thrown err, view := View.ERROR } := by
    simp [handleRedirect, handleRedirectTry, htoken, hfail, catchBlock, Views_HANDLE_REDIRECT]
  rw [hrun]
  refine ⟨rfl, rfl, rfl, rfl, rfl, ?_, ?_, ?_⟩
  · exact (onClickGotIt_frame _).1
  · intro hne
    simp [onClickGotIt, truthyObj, truthyStr, hne, initialState]
  · intro heq
    simp [onClickGotIt, truthyObj, truthyStr, heq, initialState]

/-- Witness of the amended C5: the token `abc` and a relay that answers with the empty
object. -/
theorem handleRedirect_listing_failure_witness :
    (handleRedirect relayWithoutPkpsWorld initialState).state.view = View.ERROR ∧
    (handleRedirect relayWithoutPkpsWorld initialState).state.error =
      ErrorVal.thrown (JSError.Error "Unable to fetch PKPs through relay server") ∧
    (handleRedirect relayWithoutPkpsWorld initialState).state.googleIdToken = some "abc" ∧
    (onClickGotIt (handleRedirect relayWithoutPkpsWorld initialState).state).view =
      View.FETCHED :=
  have h := handleRedirect_listing_failure relayWithoutPkpsWorld "abc"
    (JSError.Error "Unable to fetch PKPs through relay server") rfl rfl
  ⟨h.1, h.2.1, h.2.2.1, h.2.2.2.2.2.2.1 (by decide)⟩

/-! ## Session creation -/

/-- When an exception leaves the `try` block of `createSession`, the only cell written
so far is `view`. -/
theorem createSessionTry_thrown_state (w : World) (s : State) (pkp : PKP) (err : JSError)
    (h : (createSessionTry w s pkp).thrown = some err) :
    (createSessionTry w s pkp).state = { s with view := View.CREATING_SESSION } := by
  unfold createSessionTry at h ⊢
  cases hc : s.litNodeClient with
  | none => simp
  | some client =>
    simp only [hc] at h ⊢
    cases hn : w.getSessionSigs (getSessionSigsArgs s pkp) with
    | error e => simp
    | ok sigs =>
      rw [hn] at h
      simp at h

/-- The handler `createSession` never writes the `pkps` cell. -/
theorem createSession_pkps (w : World) (s : State) (pkp : PKP) :
    (createSession w s pkp).state.pkps = s.pkps := by
  unfold createSession
  rw [(catchBlock_frame _).2.2.1]
  unfold createSessionTry
  cases s.litNodeClient with
  | none => rfl
  | some client =>
    simp only
    cases w.getSessionSigs (getSessionSigsArgs s pkp) <;> rfl

/-- What `createSession` leaves behind after a failure, and where the click on
"Got it" leads from there. -/
theorem createSession_failure (w : World) (s : State) (pkp : PKP) (err : JSError)
    (h : (createSessionTry w s pkp).thrown = some err) :
    (createSession w s pkp).state.currentPKP = s.currentPKP ∧
    (createSession w s pkp).state.sessionSigs = s.sessionSigs ∧
    (createSession w s pkp).state.view = View.ERROR ∧
    (createSession w s pkp).state.error = ErrorVal.thrown err ∧
    (∀ prior, s.sessionSigs = some prior →
      (onClickGotIt (createSession w s pkp).state).view = View.SESSION_CREATED) ∧
    (s.sessionSigs = none → ∀ token, s.googleIdToken = some token → token ≠ "" →
      (onClickGotIt (createSession w s pkp).state).view = View.FETCHED) := by
  have hstate := createSessionTry_thrown_state w s pkp err h
  have hframe := catchBlock_frame (createSessionTry w s pkp)
  have hthrown := catchBlock_thrown (createSessionTry w s pkp) err h
  have hpkp : (createSession w s pkp).state.currentPKP = s.currentPKP := by
    unfold createSession
    rw [hframe.2.2.2.1, hstate]
  have hsigs : (createSession w s pkp).state.sessionSigs = s.sessionSigs := by
    unfold createSession
    rw [hframe.2.2.2.2.1, hstate]
  have htok : (createSession w s pkp).state.googleIdToken = s.googleIdToken := by
    unfold createSession
    rw [hframe.2.1, hstate]
  refine ⟨hpkp, hsigs, hthrown.1, hthrown.2, ?_, ?_⟩
  · intro prior hprior
    exact onClickGotIt_view_of_session _ prior (hsigs.trans hprior)
  · intro hnone token htoken hne
    rw [onClickGotIt_view_of_no_session _ (hsigs.trans hnone), htok, htoken]
    simp [truthyStr, hne]

/-- C7: `createSession(pkp)` is all-or-nothing.  When the network returns session
signatures, `currentPKP` becomes `pkp`, `sessionSigs` becomes exactly what was returned and
the session view is shown.  When the network call fails (and likewise when no client is
connected yet), `currentPKP` and `sessionSigs` keep their values and the error view is
shown; the click on "Got it" then leads to the session view when session signatures of an
earlier session were held, and to the view `FETCHED` when none were and a non-empty token
is held. -/
theorem createSession_all_or_nothing (w : World) (s : State) (pkp : PKP) :
    (∀ client sigs, s.litNodeClient = some client →
      w.getSessionSigs (getSessionSigsArgs s pkp) = Except.ok sigs →
      (createSession w s pkp).state.currentPKP = some pkp ∧
      (createSession w s pkp).state.sessionSigs = some sigs ∧
      (createSession w s pkp).state.view = View.SESSION_CREATED) ∧
    (∀ client err, s.litNodeClient = some client →
      w.getSessionSigs (getSessionSigsArgs s pkp) = Except.error err →
      (createSession w s pkp).state.currentPKP = s.currentPKP ∧
      (createSession w s pkp).state.sessionSigs = s.sessionSigs ∧
      (createSession w s pkp).state.view = View.ERROR ∧
      (createSession w s pkp).state.error = ErrorVal.thrown err ∧
      (∀ prior, s.sessionSigs = some prior →
        (onClickGotIt (createSession w s pkp).state).view = View.SESSION_CREATED) ∧
      (s.sessionSigs = none → ∀ token, s.googleIdToken = some token → token ≠ "" →
        (onClickGotIt (createSession w s pkp).state).view = View.FETCHED)) ∧
    (s.litNodeClient = none →
      (createSession w s pkp).state.currentPKP = s.currentPKP ∧
      (createSession w s pkp).state.sessionSigs = s.sessionSigs ∧
      (createSession w s pkp).state.view = View.ERROR ∧
      (createSession w s pkp).calls = []) := by
  refine ⟨?_, ?_, ?_⟩
  · intro client sigs hclient hnet
    simp [createSession, createSessionTry, hclient, hnet, catchBlock]
  · intro client err hclient hnet
    have hthrown : (createSessionTry w s pkp).thrown = some err := by
      simp [createSessionTry, hclient, hnet]
    exact createSession_failure w s pkp err hthrown
  · intro hclient
    simp [createSession, createSessionTry, hclient, catchBlock]

/-- Witness of C7: the sample network grants a first session; a network that refuses
leaves a user with a session in that session, and a user without one at the key list. -/
theorem createSession_all_or_nothing_witness :
    ((createSession sampleWorld fetchedState samplePKP).state.currentPKP = some samplePKP ∧
      (createSession sampleWorld fetchedState samplePKP).state.sessionSigs =
        some sampleSessionSigs ∧
      (createSession sampleWorld fetchedState samplePKP).state.view = View.SESSION_CREATED) ∧
    ((createSession sessionRefusedWorld sessionState samplePKP).state.sessionSigs =
        sessionState.sessionSigs ∧
      (createSession sessionRefusedWorld sessionState samplePKP).state.view = View.ERROR ∧
      (onClickGotIt (createSession sessionRefusedWorld sessionState samplePKP).state).view =
        View.SESSION_CREATED) ∧
    ((createSession sessionRefusedWorld fetchedState samplePKP).state.currentPKP =
        fetchedState.currentPKP ∧
      (createSession sessionRefusedWorld fetchedState samplePKP).state.view = View.ERROR ∧
      (onClickGotIt (createSession sessionRefusedWorld fetchedState samplePKP).state).view =
        View.FETCHED) :=
  have ok := (createSession_all_or_nothing sampleWorld fetchedState samplePKP).1
    sampleClient sampleSessionSigs rfl rfl
  have again := (createSession_all_or_nothing sessionRefusedWorld sessionState samplePKP).2.1
    sampleClient (JSError.Error "session refused") rfl rfl
  have first := (createSession_all_or_nothing sessionRefusedWorld fetchedState samplePKP).2.1
    sampleClient (JSError.Error "session refused") rfl rfl
  ⟨ok,
    ⟨again.2.1, again.2.2.1, again.2.2.2.2.1 sampleSessionSigs rfl⟩,
    ⟨first.1, first.2.2.1, first.2.2.2.2.2 rfl "abc" rfl (by decide)⟩⟩

/-! ## Minting -/

/-- After a successful mint the `pkps` cell holds the string that `pkps + [newPKP]`
evaluates to, whatever it held before. -/
theorem mint_stores_string (w : World) (s : State) (newPKP : PKP)
    (h : (mintGooglePKP w s.googleIdToken).result = Except.ok newPKP) :
    (mint w s).state.pkps = PKPsVal.str (s.pkps.toPrimitive ++ "[object Object]") := by
  unfold mint
  rw [(catchBlock_frame _).2.2.1]
  unfold mintTry
  simp only [h]
  rw [createSession_pkps]
  rfl

/-- C2, the code at one input: the token `abc` is held, the held collection is the
empty array, the mint succeeds with the record `0xAA / 04bb`.  The claim asks for the
one-element array of that record; `mint` stores the string `[object Object]`, of
length 15. -/
theorem mint_stores_string_not_array :
    fetchedState.pkps = PKPsVal.arr [] ∧
    (mintGooglePKP sampleWorld fetchedState.googleIdToken).result = Except.ok samplePKP ∧
    (mint sampleWorld fetchedState).state.view = View.SESSION_CREATED ∧
    (mint sampleWorld fetchedState).state.pkps = PKPsVal.str "[object Object]" ∧
    (mint sampleWorld fetchedState).state.pkps ≠ PKPsVal.arr ([] ++ [samplePKP]) ∧
    (mint sampleWorld fetchedState).state.pkps.length = 15 ∧
    (PKPsVal.arr ([] : List PKP)).length + 1 = 1 :=
  ⟨rfl, rfl, rfl, rfl, by decide, by decide, rfl⟩

end PkpGoogleAuth
